import Mathlib

/-
Verification of the article evaluation and deduplication pipeline of
telegram_news_bot.py, as a shallow embedding in Lean 4.

Modelling conventions:
* Python strings are Lean `String`s; the regex character classes are modelled
  on ASCII (Python `\w` becomes alphanumeric-or-underscore, `\s` becomes
  whitespace), which agrees with Python on every input appearing below.
* Timestamps (`datetime`) are integers counting seconds; `timedelta`
  comparisons become integer comparisons on second counts, and the textual
  ISO-8601 comparison used by the SQL `DELETE` is modelled by integer order
  (lexicographic order on fixed-format ISO-8601 strings is chronological).
* The md5 digest is modelled by the identity on its input string: every claim
  below concerns only equality or inequality of digests of the corresponding
  pre-images, and md5 is a deterministic function which is injective on the
  short strings involved.
* The float comparison `len(i)/len(u) > 0.7` is modelled by the exact integer
  comparison `7*u < 10*i`; the two agree for all set sizes below 10^13 since
  no rational with such a denominator lies between the double nearest to 0.7
  and 7/10.
* The sqlite articles table is an association list keyed by content hash;
  `INSERT OR REPLACE` removes the row with the conflicting key and appends.
* The Telegram dispatcher is an external collaborator; in `run_once` it is
  modelled as always succeeding, so every selected article is delivered and
  then recorded with `sent_to_channel = true`.
* `list.sort(key=..., reverse=True)` is a stable descending sort; any stable
  sort computes the same list, and it is modelled with `List.insertionSort`
  on the reversed lexicographic key order.
-/

/-- ASCII model of the regex class `\w`: letters, digits and underscore. -/
def isWordChar (c : Char) : Bool := c.isAlphanum || c = '_'

/-- Lowercase a Python string, viewed as its list of characters. -/
def lowerStr (s : String) : List Char := s.data.map Char.toLower

/-- Python substring membership `needle in hay` (true for the empty needle). -/
def containsSubstr (needle : String) (hay : List Char) : Bool :=
  hay.tails.any (fun t => needle.data.isPrefixOf t)

/-- One entry of the `high_impact_keywords` registry: a keyword list and a
per-category weight. -/
structure KeywordCategory where
  keywords : List String
  score : Int
  deriving DecidableEq

/-- The keyword registry of `TelegramNewsBot.__init__`, verbatim. -/
def high_impact_keywords : List (String × KeywordCategory) :=
  [("breaking_urgent",
    ⟨["breaking", "urgent", "alert", "major", "massive", "historic", "unprecedented"], 10⟩),
   ("indian_companies",
    ⟨["paytm", "flipkart", "zomato", "swiggy", "byju", "ola", "phonepe", "tcs",
      "infosys", "reliance", "jio", "wipro", "hcl"], 6⟩),
   ("global_tech_giants",
    ⟨["apple", "google", "microsoft", "amazon", "meta", "tesla", "nvidia", "openai",
      "chatgpt", "anthropic", "deepmind"], 7⟩),
   ("high_impact_events",
    ⟨["ipo", "acquisition", "merger", "funding", "layoffs", "hack", "breach", "crash",
      "surge", "bankruptcy", "scandal"], 8⟩),
   ("emerging_tech",
    ⟨["ai", "artificial intelligence", "crypto", "bitcoin", "ethereum", "blockchain",
      "5g", "quantum", "autonomous", "drone"], 5⟩),
   ("financial_impact",
    ⟨["billion", "million", "stock", "market", "valuation", "revenue", "profit",
      "loss", "earnings"], 4⟩)]

/-- Keyword step of `calculate_importance_score` for one category:
`matches = sum(1 for keyword in keywords if keyword in text)`, then
`matches * score` is added when `matches > 0`. -/
def categoryScore (text : List Char) (c : KeywordCategory) : Int :=
  if 0 < c.keywords.countP (fun k => containsSubstr k text) then
    (c.keywords.countP (fun k => containsSubstr k text) : Int) * c.score
  else 0

/-- Total keyword-based score accumulated over the registry. -/
def keywordScore (text : List Char) : Int :=
  (high_impact_keywords.map (fun p => categoryScore text p.2)).sum

/-- Title-position bonus: 5 per keyword of the `breaking_urgent` and
`high_impact_events` categories occurring in the lowercased title. -/
def titleBonus (title_lower : List Char) : Int :=
  (high_impact_keywords.map (fun p =>
    if p.1 = "breaking_urgent" ∨ p.1 = "high_impact_events" then
      5 * ((p.2.keywords.countP (fun k => containsSubstr k title_lower) : Nat) : Int)
    else 0)).sum

/-- Freshness bonus of `calculate_importance_score`, on the age
`now - published_time` in seconds: under 1h gives 8, under 6h gives 5,
under 12h gives 2, else 0; tiers are mutually exclusive. -/
def recencyBonus (diff : Int) : Int :=
  if diff < 3600 then 8
  else if diff < 21600 then 5
  else if diff < 43200 then 2
  else 0

/-- Place-name tokens of the Indian context bonus. -/
def localityWords : List String :=
  ["india", "indian", "delhi", "mumbai", "bangalore", "bengaluru"]

/-- Locality step: 4 when any place name occurs in the lowercased title. -/
def localityBonus (title_lower : List Char) : Int :=
  if localityWords.any (fun w => containsSubstr w title_lower) then 4 else 0

/-- Embedding of `calculate_importance_score(title, description,
published_time)`; `now` stands for `datetime.now()` and `published_time` is
`none` for Python `None`.  The sequential accumulation of the source is
written as one sum, capped by `min(score, 20)`. -/
def calculate_importance_score (now : Int) (title : String) (description : String)
    (published_time : Option Int) : Int :=
  min (keywordScore (lowerStr (title ++ " " ++ description))
      + titleBonus (lowerStr title)
      + (match published_time with
         | some pt => recencyBonus (now - pt)
         | none => 0)
      + localityBonus (lowerStr title)) 20

/-- Characters kept by `re.sub(r'[^\w\s]', '', ...)`. -/
def keepChar (c : Char) : Bool := isWordChar c || c.isWhitespace

/-- Python `str.strip()`: drop whitespace from both ends. -/
def stripEnds (l : List Char) : List Char :=
  ((l.dropWhile Char.isWhitespace).reverse.dropWhile Char.isWhitespace).reverse

/-- Effect of `re.sub(r'\s+', ' ', ...)`: each maximal whitespace run becomes
a single space. -/
def collapseSpaces : List Char → List Char
  | [] => []
  | [c] => if c.isWhitespace then [' '] else [c]
  | c :: d :: rest =>
    if c.isWhitespace && d.isWhitespace then collapseSpaces (d :: rest)
    else (if c.isWhitespace then ' ' else c) :: collapseSpaces (d :: rest)

/-- Title normalization of `create_content_hash`: lowercase, drop characters
outside `\w` and `\s`, strip the ends, collapse whitespace runs. -/
def clean_title (title : String) : List Char :=
  collapseSpaces (stripEnds ((lowerStr title).filter keepChar))

/-- One match attempt of the pattern `https?://(www\.)?` at the head of the
list: the remainder after the match, or `none` when the pattern does not
match here. -/
def stripSchemeStep (l : List Char) : Option (List Char) :=
  let afterScheme : Option (List Char) :=
    if ("https://".data).isPrefixOf l then some (l.drop 8)
    else if ("http://".data).isPrefixOf l then some (l.drop 7)
    else none
  afterScheme.map (fun r => if ("www.".data).isPrefixOf r then r.drop 4 else r)

/-- Left-to-right scan of `re.sub(r'https?://(www\.)?', '', ...)`, with fuel
bounded by the list length (each step consumes at least one character). -/
def stripSchemeWwwAux : Nat → List Char → List Char
  | 0, l => l
  | _ + 1, [] => []
  | fuel + 1, c :: cs =>
    match stripSchemeStep (c :: cs) with
    | some r => stripSchemeWwwAux fuel r
    | none => c :: stripSchemeWwwAux fuel cs

/-- Embedding of `re.sub(r'https?://(www\.)?', '', s)`. -/
def stripSchemeWww (l : List Char) : List Char := stripSchemeWwwAux l.length l

/-- Python `str.split(sep)` for a one-character separator: the (possibly
empty) segments between separator occurrences. -/
def splitChar (sep : Char) : List Char → List (List Char)
  | [] => [[]]
  | c :: cs =>
    if c = sep then [] :: splitChar sep cs
    else
      match splitChar sep cs with
      | [] => [[c]]
      | p :: ps => (c :: p) :: ps

/-- Domain extraction of `create_content_hash`:
`re.sub(r'https?://(www\.)?', '', url.split('/')[2] if '/' in url else url)`.
The index `[2]` into the split is partial, hence the `Option`. -/
def url_domain (url : String) : Option (List Char) :=
  if url.data.contains '/' then
    ((splitChar '/' url.data)[2]?).map stripSchemeWww
  else some (stripSchemeWww url.data)

/-- Embedding of `create_content_hash(title, url)`.  The md5 digest is
modelled by the identity on the digested string `f"{clean_title}:{url_domain}"`
(see the header comment); the result is `none` exactly when the Python code
raises `IndexError` on `url.split('/')[2]`. -/
def create_content_hash (title url : String) : Option String :=
  (url_domain url).map (fun d => String.mk (clean_title title ++ ':' :: d))

/-- Maximal runs of `\w` characters, as in `re.findall(r'\w+', s)`, with fuel
bounded by the list length (each step consumes at least one character). -/
def tokenizeAux : Nat → List Char → List String
  | 0, _ => []
  | _ + 1, [] => []
  | fuel + 1, c :: cs =>
    if isWordChar c then
      String.mk ((c :: cs).takeWhile isWordChar)
        :: tokenizeAux fuel ((c :: cs).dropWhile isWordChar)
    else tokenizeAux fuel cs

/-- Token set of a title: `set(re.findall(r'\w+', title.lower()))`. -/
def tokenSet (title : String) : Finset String :=
  (tokenizeAux (lowerStr title).length (lowerStr title)).toFinset

/-- Embedding of `is_similar_article_sent`, over the list of titles returned
by `SELECT title FROM articles WHERE sent_to_channel = 1`.  The float
threshold test `len(intersection)/len(union) > 0.7` is the exact comparison
`7 * |union| < 10 * |intersection|` (see the header comment). -/
def is_similar_article_sent (sentTitles : List String) (title : String) : Bool :=
  let title_words := tokenSet title
  if title_words.card < 3 then false
  else sentTitles.any (fun sent_title =>
    let sent_words := tokenSet sent_title
    if sent_words.card < 3 then false
    else decide (7 * (title_words ∪ sent_words).card
                  < 10 * (title_words ∩ sent_words).card))

/-- Row of the sqlite `articles` table. -/
structure StoredRecord where
  url : String
  title : String
  source : String
  importance_score : Int
  published_time : Int
  scraped_at : Int
  sent_to_channel : Bool
  deriving DecidableEq

/-- The articles table: an association list keyed by `content_hash`. -/
abbrev Store := List (String × StoredRecord)

/-- Effect of `INSERT OR REPLACE`: drop any row with the same key, append the
new row. -/
def upsert (store : Store) (h : String) (r : StoredRecord) : Store :=
  store.filter (fun p => p.1 != h) ++ [(h, r)]

/-- Embedding of `is_article_sent`: a row with this hash and
`sent_to_channel = 1` exists. -/
def is_article_sent (store : Store) (h : String) : Bool :=
  store.any (fun p => p.1 == h && p.2.sent_to_channel)

/-- Titles of rows with `sent_to_channel = 1`, as read by
`is_similar_article_sent`. -/
def sentTitlesOf (store : Store) : List String :=
  (store.filter (fun p => p.2.sent_to_channel)).map (fun p => p.2.title)

/-- The `NewsItem` dataclass. -/
structure NewsItem where
  title : String
  url : String
  source : String
  published_time : Int
  importance_score : Int
  content_hash : String
  description : String
  deriving DecidableEq

/-- Embedding of `save_article(article, sent)`: insert-or-replace the row,
with `scraped_at = datetime.now()`. -/
def save_article (now : Int) (store : Store) (a : NewsItem) (sent : Bool) : Store :=
  upsert store a.content_hash
    ⟨a.url, a.title, a.source, a.importance_score, a.published_time, now, sent⟩

/-- Embedding of `cleanup_old_articles`: `DELETE FROM articles WHERE
scraped_at < cutoff` with `cutoff = now - 7 days`; a row is kept exactly when
its `scraped_at` is not below the cutoff (604800 seconds = 7 days). -/
def cleanup_old_articles (now : Int) (store : Store) : Store :=
  store.filter (fun p => !decide (p.2.scraped_at < now - 604800))

/-- Embedding of `is_article_fresh`: age at most `latest_threshold`
(24 hours = 86400 seconds). -/
def is_article_fresh (now : Int) (published_time : Int) : Bool :=
  decide (now - published_time ≤ 86400)

/-- A raw feed entry, already through date parsing: `published_time` is the
result of `parse_publish_date` (an integer timestamp, defaulting to `now`
for unparseable dates, which is outside the scope of the claims). -/
structure Entry where
  title : String
  url : String
  published_time : Int
  description : String
  deriving DecidableEq

/-- One match attempt of the pattern `<[^>]+>` at the head: the pattern needs
a `<`, at least one non-`>` character, then `>`. -/
def stripTagsAux : Nat → List Char → List Char
  | 0, l => l
  | _ + 1, [] => []
  | fuel + 1, c :: cs =>
    if c = '<' then
      match cs.takeWhile (fun d => d != '>'), cs.dropWhile (fun d => d != '>') with
      | _ :: _, _ :: tail => stripTagsAux fuel tail
      | _, _ => c :: stripTagsAux fuel cs
    else c :: stripTagsAux fuel cs

/-- Description clean-up of `scrape_rss_feed`: when non-empty, remove HTML
tags via `re.sub(r'<[^>]+>', '', ...)`, strip, and keep 300 characters. -/
def cleanDescription (d : String) : String :=
  if d = "" then d
  else String.mk ((stripEnds (stripTagsAux d.data.length d.data)).take 300)

/-- Per-entry pipeline of `scrape_rss_feed` over at most 15 entries of one
feed: strip title and url, skip empty ones, keep fresh entries, score them,
keep scores of at least 10, compute the content hash (a raised `IndexError`
is caught by the per-entry handler, hence `none` skips the entry), and keep
entries passing both duplicate checks against the store. -/
def scrape_rss_feed (now : Int) (store : Store) (source_name : String)
    (entries : List Entry) : List NewsItem :=
  (entries.take 15).filterMap (fun e =>
    let title := String.mk (stripEnds e.title.data)
    let url := String.mk (stripEnds e.url.data)
    if title = "" || url = "" then none
    else if !is_article_fresh now e.published_time then none
    else
      let description := cleanDescription e.description
      let importance := calculate_importance_score now title description
        (some e.published_time)
      if 10 ≤ importance then
        match create_content_hash title url with
        | none => none
        | some h =>
          if !is_article_sent store h
              && !is_similar_article_sent (sentTitlesOf store) title then
            some ⟨title, url, source_name, e.published_time, importance, h, description⟩
          else none
      else none)

/-- Descending composite sort key of `run_once`:
`key=lambda x: (x.importance_score, x.published_time), reverse=True`.
`sortKeyGe a b` holds when `a` may come before `b`. -/
def sortKeyGe (a b : NewsItem) : Prop :=
  b.importance_score < a.importance_score
    ∨ (b.importance_score = a.importance_score ∧ b.published_time ≤ a.published_time)

instance : DecidableRel sortKeyGe := fun a b => by
  unfold sortKeyGe
  infer_instance

/-- The sort of `run_once`: a stable descending sort on the composite key
(Python `list.sort` is stable; any stable sort computes the same list). -/
def sortArticles (l : List NewsItem) : List NewsItem :=
  List.insertionSort sortKeyGe l

/-- Ranked selection of `run_once`: sort, then keep the top 8. -/
def select_top (l : List NewsItem) : List NewsItem :=
  (sortArticles l).take 8

/-- Embedding of `run_once`: scan the sources in order, accumulating the
qualifying articles and recording each in the store with
`sent_to_channel = false`; then sort, truncate to 8, deliver (the dispatcher
is modelled as always succeeding) and re-record each delivered article with
`sent_to_channel = true`.  Returns the delivered articles and the final
store. -/
def run_once (now : Int) (store : Store) (sources : List (String × List Entry)) :
    List NewsItem × Store :=
  let scan := sources.foldl (fun acc s =>
      let articles := scrape_rss_feed now acc.2 s.1 s.2
      (acc.1 ++ articles,
       articles.foldl (fun st a => save_article now st a false) acc.2))
    (([] : List NewsItem), store)
  let top_articles := select_top scan.1
  (top_articles, top_articles.foldl (fun st a => save_article now st a true) scan.2)

instance : IsTotal NewsItem sortKeyGe :=
  ⟨by intro a b; unfold sortKeyGe; omega⟩

instance : IsTrans NewsItem sortKeyGe :=
  ⟨by intro a b c hab hbc; unfold sortKeyGe at hab hbc ⊢; omega⟩

/-- Number of occurrences of `needle` as a substring of `hay` (counting each
starting position). -/
def occurrenceCount (needle : String) (hay : List Char) : Nat :=
  (hay.tails.filter (fun t => needle.data.isPrefixOf t)).length

/-- Spec-worded variant of the keyword step, for comparison with
`keywordScore`: it follows the reading of the specification under which a
keyword occurring k times in the search text contributes `k * weight`, by
summing occurrence multiplicities instead of counting matching keywords. -/
def keywordScoreSpec (text : List Char) : Int :=
  (high_impact_keywords.map (fun p =>
    (((p.2.keywords.map (fun k => occurrenceCount k text)).sum : Nat) : Int)
      * p.2.score)).sum

/-- Concrete feed entry used in the end-to-end scenarios: fresh (600 seconds
old at `now = 1000000`) and scoring 20, well above the gate. -/
def demoEntry : Entry :=
  ⟨"Breaking major alert on funding", "https://example.com/a", 999400, ""⟩

/-- Content hash of `demoEntry` (the digested string; see the header). -/
def demoHash : String := "breaking major alert on funding:example.com"

/-- First run over a single source carrying `demoEntry`, from an empty
store. -/
def demoRun1 : List NewsItem × Store :=
  run_once 1000000 [] [("TechCrunch", [demoEntry])]

/-- Second run over the same input, from the store left by `demoRun1`. -/
def demoRun2 : List NewsItem × Store :=
  run_once 1000000 demoRun1.2 [("TechCrunch", [demoEntry])]

/-- One run in which two different sources carry the identical entry. -/
def demoRunTwoSources : List NewsItem × Store :=
  run_once 1000000 [] [("TechCrunch", [demoEntry]), ("The Verge", [demoEntry])]

/-- Store row as written for `demoEntry` during a run, before delivery. -/
def demoRecordUnsent : StoredRecord :=
  ⟨"https://example.com/a", "Breaking major alert on funding", "TechCrunch",
    20, 999400, 1000000, false⟩

/-- A delivered record scraped 6 days before `now = 1000000`. -/
def demoFreshRecord : StoredRecord :=
  ⟨"https://example.com/f", "Fresh title", "TechCrunch", 12, 900000, 481600, true⟩

/-- An undelivered record scraped 8 days before `now = 1000000`. -/
def demoStaleRecord : StoredRecord :=
  ⟨"https://example.com/s", "Stale title", "The Verge", 11, 300000, 308800, false⟩

/-- A store holding one 6-day-old and one 8-day-old record. -/
def demoStore : Store :=
  [("h1", demoFreshRecord), ("h2", demoStaleRecord)]

theorem high_impact_scores_nonneg : ∀ p ∈ high_impact_keywords, 0 ≤ p.2.score := by
  decide

theorem categoryScore_nonneg (text : List Char) (c : KeywordCategory)
    (hc : 0 ≤ c.score) : 0 ≤ categoryScore text c := by
  unfold categoryScore
  split
  · exact mul_nonneg (Int.natCast_nonneg _) hc
  · exact le_refl 0

theorem keywordScore_nonneg (text : List Char) : 0 ≤ keywordScore text := by
  unfold keywordScore
  apply List.sum_nonneg
  intro x hx
  simp only [List.mem_map] at hx
  obtain ⟨p, hp, rfl⟩ := hx
  exact categoryScore_nonneg _ _ (high_impact_scores_nonneg p hp)

theorem titleBonus_nonneg (title_lower : List Char) : 0 ≤ titleBonus title_lower := by
  unfold titleBonus
  apply List.sum_nonneg
  intro x hx
  simp only [List.mem_map] at hx
  obtain ⟨p, hp, rfl⟩ := hx
  split
  · exact mul_nonneg (by norm_num) (Int.natCast_nonneg _)
  · exact le_refl 0

theorem recencyBonus_nonneg (diff : Int) : 0 ≤ recencyBonus diff := by
  unfold recencyBonus
  split_ifs <;> norm_num

theorem localityBonus_nonneg (title_lower : List Char) : 0 ≤ localityBonus title_lower := by
  unfold localityBonus
  split_ifs <;> norm_num

theorem freshPart_nonneg (now : Int) (published_time : Option Int) :
    0 ≤ (match published_time with
         | some pt => recencyBonus (now - pt)
         | none => (0 : Int)) := by
  cases published_time with
  | none => exact le_refl 0
  | some pt => exact recencyBonus_nonneg _

/-- C1. For every title, description and publish time, the importance score
lies in [0, 20]: every contribution (keyword, title bonus, recency,
locality) is non-negative and the final `min` with 20 is the only clamp
needed. -/
theorem score_bounds (now : Int) (title description : String)
    (published_time : Option Int) :
    0 ≤ calculate_importance_score now title description published_time ∧
      calculate_importance_score now title description published_time ≤ 20 := by
  unfold calculate_importance_score
  constructor
  · apply le_min _ (by norm_num)
    have h1 := keywordScore_nonneg (lowerStr (title ++ " " ++ description))
    have h2 := titleBonus_nonneg (lowerStr title)
    have h3 := freshPart_nonneg now published_time
    have h4 := localityBonus_nonneg (lowerStr title)
    linarith
  · exact min_le_right _ _

theorem recencyBonus_antitone (a b : Int) (h : a ≤ b) :
    recencyBonus b ≤ recencyBonus a := by
  unfold recencyBonus
  split_ifs <;> omega

/-- C8. With title, description and `now` fixed, the score is monotone
non-increasing in the article's age: the recency tiers are mutually
exclusive and weakly decrease with age, and the clamp preserves the
inequality. -/
theorem score_recency_monotone (now : Int) (title description : String)
    (age₁ age₂ : Int) (h : age₁ ≤ age₂) :
    calculate_importance_score now title description (some (now - age₂))
      ≤ calculate_importance_score now title description (some (now - age₁)) := by
  unfold calculate_importance_score
  have hsub : ∀ a : Int, now - (now - a) = a := by intro a; ring
  simp only [hsub]
  apply min_le_min _ (le_refl 20)
  have hr := recencyBonus_antitone age₁ age₂ h
  omega

/-- Witness for C8 at a concrete input: an article 30 minutes old scores at
least as high as the same article 8 hours old. -/
theorem score_recency_monotone_witness :
    (1800 : Int) ≤ 28800 ∧
      calculate_importance_score 1000000 "x" "" (some (1000000 - 28800))
        ≤ calculate_importance_score 1000000 "x" "" (some (1000000 - 1800)) :=
  ⟨by decide, score_recency_monotone 1000000 "x" "" 1800 28800 (by decide)⟩

theorem jaccard_gt_iff (i u : ℕ) (hu : 0 < u) :
    (7 : ℚ) / 10 < (i : ℚ) / (u : ℚ) ↔ 7 * u < 10 * i := by
  rw [div_lt_div_iff₀ (by norm_num : (0 : ℚ) < 10) (by exact_mod_cast hu)]
  constructor <;> intro h
  · have : ((7 * u : ℕ) : ℚ) < ((10 * i : ℕ) : ℚ) := by push_cast; linarith
    exact_mod_cast this
  · have : ((7 * u : ℕ) : ℚ) < ((10 * i : ℕ) : ℚ) := by exact_mod_cast h
    push_cast at this
    linarith

/-- C4. The fuzzy duplicate check fires exactly when the candidate title has
at least 3 distinct word tokens and some previously sent title, itself with
at least 3 distinct tokens, has token-set Jaccard similarity strictly above
7/10 with it; candidates with fewer than 3 tokens are never flagged. -/
theorem fuzzy_dedup_iff (sent : List String) (title : String) :
    is_similar_article_sent sent title = true ↔
      3 ≤ (tokenSet title).card ∧
        ∃ st ∈ sent, 3 ≤ (tokenSet st).card ∧
          (7 : ℚ) / 10 <
            ((tokenSet title ∩ tokenSet st).card : ℚ)
              / ((tokenSet title ∪ tokenSet st).card : ℚ) := by
  unfold is_similar_article_sent
  by_cases h3 : (tokenSet title).card < 3
  · simp only [if_pos h3, Bool.false_eq_true, false_iff]
    intro hc
    omega
  · simp only [if_neg h3, List.any_eq_true]
    have htitle : 3 ≤ (tokenSet title).card := by omega
    constructor
    · rintro ⟨st, hst, hcond⟩
      refine ⟨htitle, st, hst, ?_⟩
      by_cases hs3 : (tokenSet st).card < 3
      · rw [if_pos hs3] at hcond
        exact absurd hcond (by simp)
      · rw [if_neg hs3, decide_eq_true_eq] at hcond
        have hu : 0 < (tokenSet title ∪ tokenSet st).card :=
          lt_of_lt_of_le (by omega)
            (Finset.card_le_card Finset.subset_union_left)
        exact ⟨by omega, (jaccard_gt_iff _ _ hu).mpr hcond⟩
    · rintro ⟨_, st, hst, hs3, hsim⟩
      refine ⟨st, hst, ?_⟩
      rw [if_neg (by omega : ¬ (tokenSet st).card < 3), decide_eq_true_eq]
      have hu : 0 < (tokenSet title ∪ tokenSet st).card :=
        lt_of_lt_of_le (by omega)
          (Finset.card_le_card Finset.subset_union_left)
      exact (jaccard_gt_iff _ _ hu).mp hsim

/-- C6. The selector sorts the aggregated pool descending by
`(importance_score, published_time)` and keeps at most 8: the sorted list is
a permutation of the pool, it is ordered under the composite key, the
selection is its 8-element prefix (so a pool of 20 yields exactly 8), and
every selected article dominates every unselected one under the key. -/
theorem selection_cap (arts : List NewsItem) :
    (select_top arts).length = min 8 arts.length ∧
      (sortArticles arts).Perm arts ∧
      List.Pairwise sortKeyGe (sortArticles arts) ∧
      select_top arts = (sortArticles arts).take 8 ∧
      ∀ x ∈ select_top arts, ∀ y ∈ (sortArticles arts).drop 8, sortKeyGe x y := by
  refine ⟨?_, List.perm_insertionSort _ _, List.sorted_insertionSort _ _, rfl, ?_⟩
  · unfold select_top sortArticles
    rw [List.length_take, List.length_insertionSort]
  · intro x hx y hy
    have hs : List.Pairwise sortKeyGe (sortArticles arts) :=
      List.sorted_insertionSort _ _
    rw [← List.take_append_drop 8 (sortArticles arts)] at hs
    exact (List.pairwise_append.mp hs).2.2 x hx y hy

/-- C7. `cleanup_old_articles` keeps a stored row unchanged exactly when its
`scraped_at` is not older than 7 days (604800 seconds) before `now`,
independent of `sent_to_channel`; rows older than that are deleted. -/
theorem retention (now : Int) (store : Store) (p : String × StoredRecord)
    (hp : p ∈ store) :
    p ∈ cleanup_old_articles now store ↔ ¬ (p.2.scraped_at < now - 604800) := by
  unfold cleanup_old_articles
  simp [List.mem_filter, hp]

/-- Witness for C7: in a concrete store the 6-day-old record survives the
prune (and, by evaluation, the 8-day-old one does not qualify). -/
theorem retention_witness :
    ("h1", demoFreshRecord) ∈ demoStore ∧
      (("h1", demoFreshRecord) ∈ cleanup_old_articles 1000000 demoStore ↔
        ¬ (demoFreshRecord.scraped_at < 1000000 - 604800)) :=
  ⟨by decide, retention 1000000 demoStore ("h1", demoFreshRecord) (by decide)⟩

/-- Counterexample for C2: the spec's example pair hashes differently,
because the host is taken from `url.split('/')[2]` and the pattern
`https?://(www\.)?` cannot match inside that scheme-free segment, so the
leading `www.` survives into the digested string. -/
theorem hash_www_counterexample :
    create_content_hash "Apple Inc. Unveils!" "https://www.apple.com/x"
      ≠ create_content_hash "apple inc unveils" "http://apple.com/y" := by
  decide

/-- C2 as amended: the hash is invariant under title punctuation, case and
whitespace normalization and under the URL scheme (the host is the third
`/`-segment either way), but not under a leading `www.`, which remains in
the digested string. -/
theorem hash_normalization_amended :
    create_content_hash "Apple Inc. Unveils!" "https://apple.com/x"
      = create_content_hash "apple inc unveils" "http://apple.com/y" ∧
      create_content_hash "Apple Inc. Unveils!" "https://www.apple.com/x"
        = some "apple inc unveils:www.apple.com" := by
  decide

/-- Counterexample for C3: on the title "ai ai" the keyword "ai" occurs
twice in the search text, so the occurrence-multiplicity reading of the
claim demands a keyword contribution of 2 * 5 = 10, but the code counts
each keyword at most once and returns 5. -/
theorem keyword_multiplicity_counterexample :
    calculate_importance_score 0 "ai ai" "" none = 5 ∧
      keywordScoreSpec (lowerStr ("ai ai" ++ " " ++ "")) = 10 := by
  decide

/-- C3 as amended: each category contributes (number of its keywords present
in the search text) times its weight, so repeating a keyword adds nothing:
"ai ai" scores exactly like "ai". -/
theorem keyword_once_per_keyword :
    calculate_importance_score 0 "ai ai" "" none
      = calculate_importance_score 0 "ai" "" none ∧
      calculate_importance_score 0 "ai ai" "" none = 5 := by
  decide

/-- C5. Exact-dedup idempotence on a concrete article: the first run
delivers it once and records its hash as sent, `is_article_sent` then holds
for that hash, and a second run over the identical input delivers
nothing. -/
theorem exact_dedup_idempotent :
    demoRun1.1.length = 1 ∧
      is_article_sent demoRun1.2 demoHash = true ∧
      demoRun2.1.length = 0 := by
  decide

/-- C9. Both duplicate checks see only rows with `sent_to_channel = true`: a
row written during the run with the flag false neither satisfies
`is_article_sent` nor contributes a sent title, so when two sources carry
the identical entry in one run, both copies pass deduplication and both are
delivered, with equal content hashes. -/
theorem same_run_duplicates_delivered :
    is_article_sent [(demoHash, demoRecordUnsent)] demoHash = false ∧
      sentTitlesOf [(demoHash, demoRecordUnsent)] = [] ∧
      demoRunTwoSources.1.length = 2 ∧
      demoRunTwoSources.1.map NewsItem.content_hash = [demoHash, demoHash] := by
  decide

/-- C10. `create_content_hash` is partial: for the non-empty title "News"
and the non-empty URL "example.com/page", which contains a `/` but splits
into only two segments, the index `[2]` is out of range and the embedding
returns `none` (the Python code raises `IndexError` there). -/
theorem content_hash_partial :
    "News" ≠ "" ∧ "example.com/page" ≠ "" ∧
      ("example.com/page").data.contains '/' = true ∧
      (splitChar '/' ("example.com/page").data).length = 2 ∧
      create_content_hash "News" "example.com/page" = none := by
  decide
